import Mathlib

/-!
# Verification of the attendance tracker core

Shallow embedding of the period/attendance-window evaluator
(`src/utils/periodManager.ts`), the geofence evaluator
(`src/utils/geolocation.ts`) and the attendance record store
(`src/utils/attendanceService.ts`), together with proofs of the
specified properties.

Modelling conventions:
* wall-clock instants are minutes since midnight, as in the source
  (`getHours() * 60 + getMinutes()`), carried as `Int` because JS numbers
  are signed;
* calendar dates (`YYYY-MM-DD` strings in the source, compared
  lexicographically, which on valid ISO dates is chronological order) are
  day numbers (`Nat`);
* latitudes/longitudes are opaque coordinates (`Int × Int`); the external
  `geolib.getDistance` library call is an abstract parameter
  `dist : Int × Int → Int × Int → Nat` returning whole meters, exactly as
  the library does;
* JS floating-point divisions that feed comparisons (the spoofing speed
  check) are modelled by the exact rational comparison they compute, with
  the JS special cases `x / 0 = Infinity` (x > 0) and `0 / 0 = NaN`
  spelled out;
* record / location ids (opaque strings in the source) are `Nat`.
-/

/-- A wall-clock time of day, hour and minute (the source's `"HH:MM"`). -/
structure HM where
  h : Nat
  m : Nat
deriving DecidableEq

/-- Source `PeriodManager.timeToMinutes`: minutes since midnight. -/
def timeToMinutes (t : HM) : Int :=
  (t.h : Int) * 60 + (t.m : Int)

/-- Source `ClassPeriod` from `src/types/periods.ts`. -/
structure ClassPeriod where
  period : Option Nat
  label : String
  start_time : HM
  end_time : HM
  is_active : Bool
deriving DecidableEq

/-- The static `PERIOD_TIMETABLE` from `src/utils/periodManager.ts`. -/
def PERIOD_TIMETABLE : List ClassPeriod :=
  [ ⟨some 1, "Period 1", ⟨8, 45⟩, ⟨9, 45⟩, true⟩,
    ⟨some 2, "Period 2", ⟨9, 45⟩, ⟨10, 35⟩, true⟩,
    ⟨none, "Break", ⟨10, 35⟩, ⟨10, 55⟩, false⟩,
    ⟨some 3, "Period 3", ⟨10, 55⟩, ⟨11, 45⟩, true⟩,
    ⟨some 4, "Period 4", ⟨11, 45⟩, ⟨12, 35⟩, true⟩,
    ⟨none, "Lunch Break", ⟨12, 35⟩, ⟨13, 45⟩, false⟩,
    ⟨some 5, "Period 5", ⟨13, 45⟩, ⟨14, 35⟩, true⟩,
    ⟨some 6, "Period 6", ⟨14, 35⟩, ⟨15, 25⟩, true⟩,
    ⟨some 7, "Period 7", ⟨15, 25⟩, ⟨16, 15⟩, true⟩ ]

/-- Source `PeriodManager.getCurrentPeriod`: linear scan, first period whose
`[start_time, end_time)` contains `now`. -/
def getCurrentPeriod (periods : List ClassPeriod) (now : Int) : Option ClassPeriod :=
  periods.find? fun p =>
    decide (timeToMinutes p.start_time ≤ now) && decide (now < timeToMinutes p.end_time)

/-- Source `PeriodManager.getNextPeriod`: first period with `now < start_time`. -/
def getNextPeriod (periods : List ClassPeriod) (now : Int) : Option ClassPeriod :=
  periods.find? fun p => decide (now < timeToMinutes p.start_time)

/-- Source `PeriodStatus` from `src/types/periods.ts`. -/
structure PeriodStatus where
  currentPeriod : Option ClassPeriod
  nextPeriod : Option ClassPeriod
  isInActivePeriod : Bool
  timeUntilNext : Int
  timeRemaining : Int

/-- Source `PeriodManager.getPeriodStatus`. -/
def getPeriodStatus (periods : List ClassPeriod) (now : Int) : PeriodStatus :=
  let currentPeriod := getCurrentPeriod periods now
  let nextPeriod := getNextPeriod periods now
  let timeUntilNext :=
    match nextPeriod with
    | some np => max 0 (timeToMinutes np.start_time - now)
    | none => 0
  let timeRemaining :=
    match currentPeriod with
    | some cp => max 0 (timeToMinutes cp.end_time - now)
    | none => 0
  { currentPeriod := currentPeriod
    nextPeriod := nextPeriod
    isInActivePeriod := (currentPeriod.map (fun p => p.is_active)).getD false
    timeUntilNext := timeUntilNext
    timeRemaining := timeRemaining }

/-- Source `AttendanceWindow` from `src/types/periods.ts`. -/
structure AttendanceWindow where
  period : ClassPeriod
  canCheckIn : Bool
  canCheckOut : Bool
  reason : Option String

/-- Source `PeriodManager.getAttendanceWindow`: check-in allowed from 5 minutes
before start to 10 minutes after start, check-out during the whole period,
neither during breaks. -/
def getAttendanceWindow (period : ClassPeriod) (now : Int) : AttendanceWindow :=
  let startTime := timeToMinutes period.start_time
  let endTime := timeToMinutes period.end_time
  let attendanceWindowStart := startTime - 5
  let attendanceWindowEnd := startTime + 10
  let canCheckIn :=
    decide (attendanceWindowStart ≤ now) && decide (now ≤ attendanceWindowEnd) &&
      period.is_active
  let canCheckOut :=
    decide (startTime ≤ now) && decide (now ≤ endTime) && period.is_active
  let reason : Option String :=
    if !period.is_active then
      some "Attendance not required for breaks"
    else if now < attendanceWindowStart then
      some ("Attendance window opens in " ++ toString (attendanceWindowStart - now) ++ " minutes")
    else if now > attendanceWindowEnd ∧ now < startTime + 10 then
      some "Late check-in window (within 10 minutes of start)"
    else if now > attendanceWindowEnd then
      some "Attendance window closed"
    else
      none
  { period := period
    canCheckIn := canCheckIn
    canCheckOut := canCheckOut
    reason := reason }

/-- Source `PeriodManager.getActivePeriods`. -/
def getActivePeriods (periods : List ClassPeriod) : List ClassPeriod :=
  periods.filter fun p => p.is_active

/-- A GPS sample (`Location` in `src/utils/geolocation.ts`): opaque
coordinates, optional accuracy in meters, timestamp in epoch ms. -/
structure Location where
  latitude : Int
  longitude : Int
  accuracy : Option Nat
  timestamp : Int
deriving DecidableEq

/-- Source `GeofenceArea` from `src/utils/geolocation.ts` (center + radius). -/
structure GeofenceArea where
  id : Nat
  name : String
  centerLat : Int
  centerLon : Int
  radius : Nat
deriving DecidableEq

/-- The external `geolib.getDistance` call: an abstract great-circle
distance in whole meters. -/
def GeoDist : Type := Int × Int → Int × Int → Nat

/-- Source `GeolocationService.isWithinGeofence`: inside iff distance to the
center is at most the radius. -/
def isWithinGeofence (dist : GeoDist) (location : Location) (geofence : GeofenceArea) : Bool :=
  let distance := dist (location.latitude, location.longitude) (geofence.centerLat, geofence.centerLon)
  decide (distance ≤ geofence.radius)

/-- Source `GeolocationService.getDistanceFromGeofence`. -/
def getDistanceFromGeofence (dist : GeoDist) (location : Location) (geofence : GeofenceArea) : Nat :=
  dist (location.latitude, location.longitude) (geofence.centerLat, geofence.centerLon)

/-- Source `GeolocationService.validateLocationAccuracy`, the source expression
`location.accuracy ? location.accuracy <= 100 : false`: a missing
accuracy is rejected, and so is a JS-falsy accuracy of `0`. -/
def validateLocationAccuracy (location : Location) : Bool :=
  match location.accuracy with
  | none => false
  | some a => if a = 0 then false else decide (a ≤ 100)

/-- One step of the spoofing loop, the source's
`speed = distance / ((curr.timestamp - prev.timestamp) / 1000); speed > 50`
evaluated exactly: for positive elapsed ms this is `1000·d > 50·ms`; for
zero elapsed ms JS yields `Infinity > 50` (true) when `d > 0` and
`NaN > 50` (false) when `d = 0`; for negative elapsed ms the speed is
negative (or `NaN`), never `> 50`. -/
def spoofPair (dist : GeoDist) (prev curr : Location) : Bool :=
  let d : Nat := dist (prev.latitude, prev.longitude) (curr.latitude, curr.longitude)
  let ms : Int := curr.timestamp - prev.timestamp
  decide (0 ≤ ms ∧ 50 * ms < 1000 * (d : Int))

/-- The `for` loop of `detectLocationSpoofing` over consecutive pairs,
returning on the first flagged pair. -/
def spoofLoop (dist : GeoDist) : Location → List Location → Bool
  | _, [] => false
  | prev, curr :: rest =>
    if spoofPair dist prev curr then true else spoofLoop dist curr rest

/-- Source `GeolocationService.detectLocationSpoofing`. -/
def detectLocationSpoofing (dist : GeoDist) (locations : List Location) : Bool :=
  if locations.length < 2 then false
  else
    match locations with
    | [] => false
    | l :: rest => spoofLoop dist l rest

/-- Source `RegisteredLocation` from `src/utils/geolocation.ts`. -/
structure RegisteredLocation where
  id : Nat
  locationName : String
  latitude : Int
  longitude : Int
  radiusMeters : Nat
  isActive : Bool
  createdAt : Nat
  updatedAt : Nat
deriving DecidableEq

/-- The registered-location state of `GeolocationService`: the
`registeredLocations` array and `activeLocationId`. -/
structure GeoState where
  registeredLocations : List RegisteredLocation
  activeLocationId : Option Nat
deriving DecidableEq

/-- Rewrite the first element satisfying `p` (the source's
`find`-then-mutate / `findIndex`-then-assign pattern); when nothing
matches the list is unchanged, as a JS `array[-1] = ...` write leaves
the array's elements unchanged. -/
def modifyFirst {α : Type} (p : α → Bool) (f : α → α) : List α → List α
  | [] => []
  | x :: xs => if p x then f x :: xs else x :: modifyFirst p f xs

/-- Source `GeolocationService.registerLocation`: deactivate every registered
location, append the new one as active, make it the active id.  `newId`
and `now` stand for the generated id and `new Date().toISOString()`. -/
def registerLocation (locationName : String) (latitude longitude : Int)
    (radiusMeters : Nat) (newId now : Nat) (s : GeoState) :
    RegisteredLocation × GeoState :=
  let newLocation : RegisteredLocation :=
    { id := newId, locationName := locationName, latitude := latitude,
      longitude := longitude, radiusMeters := radiusMeters, isActive := true,
      createdAt := now, updatedAt := now }
  let deactivated := s.registeredLocations.map fun loc => { loc with isActive := false }
  (newLocation,
   { registeredLocations := deactivated ++ [newLocation],
     activeLocationId := some newId })

/-- Source `GeolocationService.setActiveLocation`: fail when the id is unknown;
otherwise deactivate all locations, then re-activate the first one with
the given id (the object the source's `find` aliased) and record it as
the active id. -/
def setActiveLocation (locationId now : Nat) (s : GeoState) : Bool × GeoState :=
  match s.registeredLocations.find? (fun loc => decide (loc.id = locationId)) with
  | none => (false, s)
  | some _ =>
    let deactivated := s.registeredLocations.map fun loc => { loc with isActive := false }
    (true,
     { registeredLocations :=
         modifyFirst (fun loc => decide (loc.id = locationId))
           (fun loc => { loc with isActive := true, updatedAt := now }) deactivated,
       activeLocationId := some locationId })

/-- The `updates` argument of `GeolocationService.updateLocation`
(`Partial<Omit<RegisteredLocation, 'id' | 'createdAt'>>`); `updatedAt`
is always overwritten by `Object.assign`'s last argument, so it is not
carried here. -/
structure LocationUpdates where
  locationName : Option String
  latitude : Option Int
  longitude : Option Int
  radiusMeters : Option Nat
  isActive : Option Bool
deriving DecidableEq

/-- Source `Object.assign(location, updates, { updatedAt: now })`. -/
def applyUpdates (u : LocationUpdates) (now : Nat) (loc : RegisteredLocation) :
    RegisteredLocation :=
  { loc with
    locationName := u.locationName.getD loc.locationName
    latitude := u.latitude.getD loc.latitude
    longitude := u.longitude.getD loc.longitude
    radiusMeters := u.radiusMeters.getD loc.radiusMeters
    isActive := u.isActive.getD loc.isActive
    updatedAt := now }

/-- Source `GeolocationService.updateLocation`: in-place `Object.assign` on the
first location with the given id; `activeLocationId` is not touched. -/
def updateLocation (locationId : Nat) (u : LocationUpdates) (now : Nat)
    (s : GeoState) : Bool × GeoState :=
  match s.registeredLocations.find? (fun loc => decide (loc.id = locationId)) with
  | none => (false, s)
  | some _ =>
    (true,
     { registeredLocations :=
         modifyFirst (fun loc => decide (loc.id = locationId)) (applyUpdates u now)
           s.registeredLocations,
       activeLocationId := s.activeLocationId })

/-- Source `GeolocationService.deleteLocation`: splice out the first location
with the given id; when it was the active one, promote the (new) first
remaining location, if any, to active. -/
def deleteLocation (locationId : Nat) (s : GeoState) : Bool × GeoState :=
  match s.registeredLocations.find? (fun loc => decide (loc.id = locationId)) with
  | none => (false, s)
  | some _ =>
    let remaining := s.registeredLocations.eraseP fun loc => decide (loc.id = locationId)
    if s.activeLocationId = some locationId then
      match remaining with
      | [] => (true, { registeredLocations := [], activeLocationId := none })
      | first :: rest =>
        (true,
         { registeredLocations := { first with isActive := true } :: rest,
           activeLocationId := some first.id })
    else
      (true, { registeredLocations := remaining, activeLocationId := s.activeLocationId })

/-- One registered-location operation, with the environment-supplied
values (generated id, timestamp) carried as arguments. -/
inductive GeoOp where
  | register (locationName : String) (latitude longitude : Int)
      (radiusMeters : Nat) (newId now : Nat)
  | setActive (locationId now : Nat)
  | update (locationId : Nat) (u : LocationUpdates) (now : Nat)
  | delete (locationId : Nat)
deriving DecidableEq

/-- Apply one operation to the state. -/
def geoStep (s : GeoState) : GeoOp → GeoState
  | .register name lat lon r newId now => (registerLocation name lat lon r newId now s).2
  | .setActive id now => (setActiveLocation id now s).2
  | .update id u now => (updateLocation id u now s).2
  | .delete id => (deleteLocation id s).2

/-- Run a sequence of operations. -/
def geoRun (s : GeoState) : List GeoOp → GeoState
  | [] => s
  | op :: ops => geoRun (geoStep s op) ops

/-- Environment well-formedness of one operation: a `register` carries a
fresh generated id (the source generates `loc_${Date.now()}_${random}`
ids for this purpose), and an `update` does not touch `isActive`. -/
def geoOpOk (s : GeoState) : GeoOp → Prop
  | .register _ _ _ _ newId _ => newId ∉ s.registeredLocations.map (fun loc => loc.id)
  | .setActive _ _ => True
  | .update _ u _ => u.isActive = none
  | .delete _ => True

instance (s : GeoState) (op : GeoOp) : Decidable (geoOpOk s op) := by
  cases op <;> simp only [geoOpOk] <;> infer_instance

/-- Every operation along a trace is well-formed for the state it is
applied to. -/
def geoTraceOk (s : GeoState) : List GeoOp → Prop
  | [] => True
  | op :: ops => geoOpOk s op ∧ geoTraceOk (geoStep s op) ops

instance (s : GeoState) (ops : List GeoOp) : Decidable (geoTraceOk s ops) := by
  induction ops generalizing s with
  | nil => exact .isTrue trivial
  | cons op ops ih => exact @instDecidableAnd _ _ _ (ih (geoStep s op))

/-- The mutual-exclusion invariant of the registered-location store:
ids are pairwise distinct, at most one location is active, and an active
location is the one `activeLocationId` names. -/
def GeoInv (s : GeoState) : Prop :=
  (s.registeredLocations.map (fun loc => loc.id)).Nodup ∧
  (s.registeredLocations.filter (fun loc => loc.isActive)).length ≤ 1 ∧
  ∀ loc ∈ s.registeredLocations, loc.isActive = true → s.activeLocationId = some loc.id

instance (s : GeoState) : Decidable (GeoInv s) := by
  unfold GeoInv; infer_instance

/-- The `status` field of an `AttendanceRecord`. -/
inductive AttStatus where
  | present
  | absent
  | late
  | partial_
deriving DecidableEq

/-- Source `AttendanceRecord` from `src/utils/attendanceService.ts`.  Times of
day (`HH:MM:SS` strings) are opaque `Nat` values, dates are day numbers,
the `location` snapshot is (latitude, longitude, accuracy, timestamp)
with the source's `accuracy || 0` fallback already applied. -/
structure AttendanceRecord where
  id : Nat
  studentId : String
  periodNumber : Option Nat
  periodLabel : String
  date : Nat
  checkInTime : Option Nat
  checkOutTime : Option Nat
  status : AttStatus
  location : Option (Int × Int × Nat × Int)
  locationVerified : Bool
  distanceFromGeofence : Option Nat
  createdAt : Nat
  updatedAt : Nat
deriving DecidableEq

/-- The key predicate of `AttendanceService.getTodayAttendance`:
same student, same date, same period number. -/
def attKey (studentId : String) (today : Nat) (periodNumber : Option Nat)
    (r : AttendanceRecord) : Bool :=
  decide (r.studentId = studentId ∧ r.date = today ∧ r.periodNumber = periodNumber)

/-- Source `AttendanceService.getTodayAttendance`: first record for the key. -/
def getTodayAttendance (records : List AttendanceRecord) (studentId : String)
    (today : Nat) (periodNumber : Option Nat) : Option AttendanceRecord :=
  records.find? (attKey studentId today periodNumber)

/-- The environment of one `markAttendance` / `markCheckOut` call: the
timetable, the wall clock, the generated id and timestamps, and the
outcome of the platform geolocation calls (`getActiveGeofenceArea`,
`getCurrentPosition` — `none` models a thrown error — and the external
distance function). -/
structure AttEnv where
  periods : List ClassPeriod
  now : Int
  today : Nat
  nowTime : Nat
  nowIso : Nat
  newId : Nat
  activeGeofence : Option GeofenceArea
  currentSample : Option Location
  dist : GeoDist

/-- The result of `AttendanceService.verifyLocation`. -/
structure LocationVerification where
  verified : Bool
  location : Option Location
  distance : Option Nat
  error : Option String

/-- Source `AttendanceService.verifyLocation`. -/
def verifyLocation (env : AttEnv) : LocationVerification :=
  match env.activeGeofence with
  | none =>
    { verified := false, location := none, distance := none,
      error := some "No active location registered for attendance" }
  | some activeGeofence =>
    match env.currentSample with
    | none =>
      { verified := false, location := none, distance := none,
        error := some "Location verification failed: Unknown error" }
    | some currentLocation =>
      if !validateLocationAccuracy currentLocation then
        { verified := false, location := some currentLocation, distance := none,
          error := some "Location accuracy too poor for attendance verification" }
      else
        let within := isWithinGeofence env.dist currentLocation activeGeofence
        let distance := getDistanceFromGeofence env.dist currentLocation activeGeofence
        { verified := within, location := some currentLocation, distance := some distance,
          error := if within then none
                   else some ("You are " ++ toString distance ++ "m away from the attendance location") }

/-- The result of `markAttendance` / `markCheckOut`. -/
structure AttResult where
  success : Bool
  message : String
  record : Option AttendanceRecord

/-- The write step of `markAttendance`: replace the record at the first
index carrying the existing record's id, or push a new record. -/
def storeRecord (existing : Option AttendanceRecord) (record : AttendanceRecord)
    (records : List AttendanceRecord) : List AttendanceRecord :=
  match existing with
  | some er => modifyFirst (fun r => decide (r.id = er.id)) (fun _ => record) records
  | none => records ++ [record]

/-- The record built by the success branch of `markAttendance`
(verbatim from the source's object literal; `verifyLocation` is pure, so
naming it here loses nothing). -/
def builtRecord (env : AttEnv) (studentId : String) (currentPeriod : ClassPeriod)
    (existingRecord : Option AttendanceRecord) : AttendanceRecord :=
  let locationVerification := verifyLocation env
  let isLate := decide (env.now > timeToMinutes currentPeriod.start_time + 5)
  { id := (existingRecord.map fun er => er.id).getD env.newId
    studentId := studentId
    periodNumber := currentPeriod.period
    periodLabel := currentPeriod.label
    date := env.today
    checkInTime := some env.nowTime
    checkOutTime := none
    status := if isLate then .late else .present
    location := locationVerification.location.map fun l =>
      (l.latitude, l.longitude, l.accuracy.getD 0, l.timestamp)
    locationVerified := true
    distanceFromGeofence := locationVerification.distance
    createdAt := (existingRecord.map fun er => er.createdAt).getD env.nowIso
    updatedAt := env.nowIso }

/-- Source `AttendanceService.markAttendance`: the check-in workflow. -/
def markAttendance (env : AttEnv) (studentId : String)
    (records : List AttendanceRecord) : AttResult × List AttendanceRecord :=
  let periodStatus := getPeriodStatus env.periods env.now
  match periodStatus.currentPeriod with
  | none => (⟨false, "No active period found", none⟩, records)
  | some currentPeriod =>
    if !currentPeriod.is_active then
      (⟨false, "Attendance not required during breaks", none⟩, records)
    else
      let attendanceWindow := getAttendanceWindow currentPeriod env.now
      if !attendanceWindow.canCheckIn then
        (⟨false, attendanceWindow.reason.getD "Attendance window is closed", none⟩, records)
      else
        let existingRecord := getTodayAttendance records studentId env.today currentPeriod.period
        if (existingRecord.map fun er => er.checkInTime.isSome).getD false then
          (⟨false, "Attendance already marked for " ++ currentPeriod.label, none⟩, records)
        else
          let locationVerification := verifyLocation env
          if !locationVerification.verified then
            (⟨false, locationVerification.error.getD "Location verification failed", none⟩,
             records)
          else
            let isLate := decide (env.now > timeToMinutes currentPeriod.start_time + 5)
            let record := builtRecord env studentId currentPeriod existingRecord
            (⟨true,
              "Attendance marked successfully for " ++ currentPeriod.label ++
                (if isLate then " (Late)" else ""),
              some record⟩,
             storeRecord existingRecord record records)

/-- Source `AttendanceService.markCheckOut`: the check-out workflow.  The source
mutates the record `getTodayAttendance` aliased (the first key match) and
then re-assigns it at the first index carrying its id; both writes are
reproduced. -/
def markCheckOut (env : AttEnv) (studentId : String)
    (records : List AttendanceRecord) : AttResult × List AttendanceRecord :=
  match (getPeriodStatus env.periods env.now).currentPeriod with
  | none => (⟨false, "No active period found", none⟩, records)
  | some currentPeriod =>
    match getTodayAttendance records studentId env.today currentPeriod.period with
    | none => (⟨false, "No check-in record found for this period", none⟩, records)
    | some existingRecord =>
      if !existingRecord.checkInTime.isSome then
        (⟨false, "No check-in record found for this period", none⟩, records)
      else if existingRecord.checkOutTime.isSome then
        (⟨false, "Already checked out for this period", none⟩, records)
      else
        let attendanceWindow := getAttendanceWindow currentPeriod env.now
        if !attendanceWindow.canCheckOut then
          (⟨false, "Check-out not allowed at this time", none⟩, records)
        else
          let updated :=
            { existingRecord with checkOutTime := some env.nowTime, updatedAt := env.nowIso }
          let mutated :=
            modifyFirst (attKey studentId env.today currentPeriod.period)
              (fun _ => updated) records
          (⟨true, "Checked out successfully from " ++ currentPeriod.label, some updated⟩,
           modifyFirst (fun r => decide (r.id = existingRecord.id)) (fun _ => updated) mutated)

/-- Source `AttendanceService.getAttendanceByDateRange` (dates are day numbers;
the source compares `YYYY-MM-DD` strings, which is the same order). -/
def getAttendanceByDateRange (records : List AttendanceRecord) (studentId : String)
    (startDate endDate : Nat) : List AttendanceRecord :=
  records.filter fun r =>
    decide (r.studentId = studentId ∧ startDate ≤ r.date ∧ r.date ≤ endDate)

/-- A record counting toward the streak (`status ∈ {present, late}`). -/
def goodStatus (r : AttendanceRecord) : Bool :=
  decide (r.status = AttStatus.present ∨ r.status = AttStatus.late)

/-- The source's `.sort((a, b) => date b − date a)`: order by date,
most recent first (insertion sort; any date-descending order is an
admissible model of the unstable JS sort). -/
def insertByDateDesc (r : AttendanceRecord) :
    List AttendanceRecord → List AttendanceRecord
  | [] => [r]
  | x :: xs => if x.date < r.date then r :: x :: xs else x :: insertByDateDesc r xs

def sortByDateDesc (records : List AttendanceRecord) : List AttendanceRecord :=
  records.foldr insertByDateDesc []

/-- The streak `for` loop of `getAttendanceStats` /
`getAttendanceStatsByDateRange`: count records while
`status ∈ {present, late}`, `break` at the first other one. -/
def streakLoop : List AttendanceRecord → Nat
  | [] => 0
  | r :: rest => if goodStatus r then 1 + streakLoop rest else 0

/-- The source's streak block: filter to present/late, sort by date
descending, run the counting loop. -/
def currentStreakOf (records : List AttendanceRecord) : Nat :=
  streakLoop (sortByDateDesc (records.filter goodStatus))

/-- Source `AttendanceStats` (the `attendanceRate` float is carried exactly as
a rational). -/
structure AttendanceStats where
  totalPeriods : Nat
  presentCount : Nat
  absentCount : Int
  lateCount : Nat
  attendanceRate : Rat
  currentStreak : Nat
deriving DecidableEq

/-- The shared tail of both stats functions, from `totalPossiblePeriods`
on (the two source functions repeat this block verbatim). -/
def statsFromRecords (records : List AttendanceRecord)
    (totalPossiblePeriods : Nat) : AttendanceStats :=
  let presentCount := (records.filter fun r => decide (r.status = AttStatus.present)).length
  let lateCount := (records.filter fun r => decide (r.status = AttStatus.late)).length
  let absentCount : Int := (totalPossiblePeriods : Int) - presentCount - lateCount
  let attendanceRate : Rat :=
    if totalPossiblePeriods > 0 then
      (((presentCount : Rat) + (lateCount : Rat)) / (totalPossiblePeriods : Rat)) * 100
    else 0
  { totalPeriods := totalPossiblePeriods
    presentCount := presentCount
    absentCount := absentCount
    lateCount := lateCount
    attendanceRate := attendanceRate
    currentStreak := currentStreakOf records }

/-- Source `AttendanceService.getAttendanceStats(studentId, days)` evaluated at
`endDate` = today's day number: range = the last `days` days, possible
periods = `days × active-period-count`. -/
def getAttendanceStats (periods : List ClassPeriod) (records : List AttendanceRecord)
    (studentId : String) (days endDate : Nat) : AttendanceStats :=
  let rangeRecords := getAttendanceByDateRange records studentId (endDate - days) endDate
  statsFromRecords rangeRecords (days * (getActivePeriods periods).length)

/-- Day-of-week of a day number (day 0 = 1970-01-01, a Thursday);
`0` = Sunday, `6` = Saturday, as in JS `Date.getDay()`. -/
def dayOfWeek (d : Nat) : Nat := (d + 4) % 7

/-- The working-day count of `getAttendanceStatsByDateRange` (weekdays
in `[startDate, endDate]`, excluding Sunday and Saturday). -/
def workingDaysBetween (startDate endDate : Nat) : Nat :=
  ((List.range (endDate + 1 - startDate)).filter fun i =>
    decide (dayOfWeek (startDate + i) ≠ 0 ∧ dayOfWeek (startDate + i) ≠ 6)).length

/-- Source `AttendanceService.getAttendanceStatsByDateRange`. -/
def getAttendanceStatsByDateRange (periods : List ClassPeriod)
    (records : List AttendanceRecord) (studentId : String)
    (startDate endDate : Nat) : AttendanceStats :=
  let rangeRecords := getAttendanceByDateRange records studentId startDate endDate
  statsFromRecords rangeRecords
    (workingDaysBetween startDate endDate * (getActivePeriods periods).length)

/-- Modelled from the spec: "current consecutive-day streak (counting
back from most recent date while status ∈ {present, late})" — the
number of consecutive calendar days, counting backwards from the most
recent attended date, on which some record has status present or late.
(The source has no such day-consecutive computation; this definition
exists to compare the spec's words with the code's streak.)
`countBackFrom attended d` counts the attended days `d, d-1, ...` down
to the first gap. -/
def countBackFrom (attended : Nat → Bool) : Nat → Nat
  | 0 => if attended 0 then 1 else 0
  | d + 1 => if attended (d + 1) then 1 + countBackFrom attended d else 0

/-- Modelled from the spec, see `countBackFrom`. -/
def specConsecutiveDayStreak (records : List AttendanceRecord) : Nat :=
  let attendedDates := (records.filter goodStatus).map fun r => r.date
  match attendedDates with
  | [] => 0
  | d :: ds => countBackFrom (fun x => attendedDates.contains x) (ds.foldl max d)

/-! ### Concrete fixtures used by witnesses and counterexamples -/

/-- Period 1 of the timetable (starts 08:45). -/
def period845 : ClassPeriod := ⟨some 1, "Period 1", ⟨8, 45⟩, ⟨9, 45⟩, true⟩

/-- The 10:35 break slot of the timetable. -/
def breakPeriod : ClassPeriod := ⟨none, "Break", ⟨10, 35⟩, ⟨10, 55⟩, false⟩

/-- A distance function that always answers 100 m. -/
def dist100 : GeoDist := fun _ _ => 100

/-- A distance function answering 0 m for identical coordinates and
10 km otherwise. -/
def dist10k : GeoDist := fun p q => if p = q then 0 else 10000

/-- A sample with good accuracy. -/
def sampleOK : Location := ⟨0, 0, some 50, 0⟩

/-- A 100 m geofence. -/
def geofence100 : GeofenceArea := ⟨1, "Campus", 0, 0, 100⟩

def locT (lat : Int) (ts : Int) : Location := ⟨lat, 0, none, ts⟩

/-- A call environment at minute `now` of day 200, over the static
timetable, with a verified in-fence sample 30 m from the center. -/
def envAt (now : Int) : AttEnv :=
  { periods := PERIOD_TIMETABLE, now := now, today := 200, nowTime := 31800,
    nowIso := 1000, newId := 7, activeGeofence := some geofence100,
    currentSample := some sampleOK, dist := fun _ _ => 30 }

/-- A later call environment on the same day. -/
def envLater (now : Int) : AttEnv :=
  { envAt now with nowTime := 32000, nowIso := 2000, newId := 8 }

/-- The empty registered-location state. -/
def geoState0 : GeoState := ⟨[], none⟩

/-- An update payload that only sets `isActive` to true. -/
def updActiveTrue : LocationUpdates := ⟨none, none, none, none, some true⟩

/-- Register two locations, then `updateLocation` the inactive first one
with `{ isActive: true }`. -/
def cexGeoState : GeoState :=
  geoRun geoState0
    [GeoOp.register "A" 0 0 100 1 10, GeoOp.register "B" 5 5 100 2 20,
     GeoOp.update 1 updActiveTrue 30]

/-- A present-status record fixture. -/
def mkRec (id date : Nat) (st : AttStatus) : AttendanceRecord :=
  ⟨id, "s1", some 1, "Period 1", date, some 1, none, st, none, true, none, 0, 0⟩

/-- Two present records nine calendar days apart. -/
def gapRecords : List AttendanceRecord :=
  [mkRec 1 101 AttStatus.present, mkRec 2 110 AttStatus.present]

/-- Records after a successful 08:50 check-in, used by check-out
witnesses. -/
def chkRecords : List AttendanceRecord := (markAttendance (envAt 530) "s1" []).2

/-! ### Helper lemmas -/

theorem getPeriodStatus_currentPeriod (periods : List ClassPeriod) (now : Int) :
    (getPeriodStatus periods now).currentPeriod = getCurrentPeriod periods now := rfl

theorem modifyFirst_length {α : Type} (p : α → Bool) (f : α → α) (l : List α) :
    (modifyFirst p f l).length = l.length := by
  induction l with
  | nil => rfl
  | cons x xs ih => by_cases hx : p x <;> simp [modifyFirst, hx, ih]

theorem mem_modifyFirst {α : Type} {p : α → Bool} {f : α → α} {l : List α} {y : α}
    (hy : y ∈ modifyFirst p f l) : y ∈ l ∨ ∃ x ∈ l, p x = true ∧ y = f x := by
  induction l with
  | nil => simp [modifyFirst] at hy
  | cons x xs ih =>
    by_cases hx : p x
    · simp only [modifyFirst, if_pos hx] at hy
      rcases List.mem_cons.mp hy with h | h
      · exact Or.inr ⟨x, List.mem_cons_self x xs, hx, h⟩
      · exact Or.inl (List.mem_cons_of_mem x h)
    · simp only [modifyFirst, if_neg hx] at hy
      rcases List.mem_cons.mp hy with h | h
      · exact Or.inl (h ▸ List.mem_cons_self x xs)
      · rcases ih h with h' | ⟨z, hz, hpz, hyz⟩
        · exact Or.inl (List.mem_cons_of_mem x h')
        · exact Or.inr ⟨z, List.mem_cons_of_mem x hz, hpz, hyz⟩

theorem map_modifyFirst {α β : Type} (p : α → Bool) (f : α → α) (g : α → β)
    (hg : ∀ x, g (f x) = g x) (l : List α) :
    (modifyFirst p f l).map g = l.map g := by
  induction l with
  | nil => rfl
  | cons x xs ih => by_cases hx : p x <;> simp [modifyFirst, hx, ih, hg]

theorem filter_modifyFirst_le_one {α : Type} (p q : α → Bool) (f : α → α) (l : List α)
    (hl : ∀ x ∈ l, q x = false) :
    ((modifyFirst p f l).filter q).length ≤ 1 := by
  induction l with
  | nil => simp [modifyFirst]
  | cons x xs ih =>
    have hxs : ∀ x ∈ xs, q x = false := fun z hz => hl z (List.mem_cons_of_mem x hz)
    have hfilxs : xs.filter q = [] :=
      List.filter_eq_nil_iff.mpr fun z hz => by simp [hxs z hz]
    by_cases hx : p x
    · simp only [modifyFirst, if_pos hx, List.filter_cons]
      by_cases hqf : q (f x) = true <;> simp [hqf, hfilxs]
    · simp only [modifyFirst, if_neg hx, List.filter_cons, hl x (List.mem_cons_self x xs)]
      simpa using ih hxs

theorem filter_modifyFirst_length_eq {α : Type} (p q : α → Bool) (f : α → α)
    (hq : ∀ x, q (f x) = q x) (l : List α) :
    ((modifyFirst p f l).filter q).length = (l.filter q).length := by
  induction l with
  | nil => rfl
  | cons x xs ih =>
    by_cases hx : p x
    · simp only [modifyFirst, if_pos hx, List.filter_cons, hq x]
      by_cases hqx : q x = true <;> simp [hqx]
    · simp only [modifyFirst, if_neg hx, List.filter_cons]
      by_cases hqx : q x = true <;> simp [hqx, ih]

theorem find?_append_right {α : Type} (p : α → Bool) (l : List α) (a : α)
    (hnone : l.find? p = none) (hpa : p a = true) :
    (l ++ [a]).find? p = some a := by
  rw [List.find?_append, hnone, Option.none_or, List.find?_cons, hpa]

theorem modifyFirst_decomp {α : Type} (p : α → Bool) (f : α → α) (l : List α) (er : α)
    (hfind : l.find? p = some er) :
    ∃ l₁ l₂, l = l₁ ++ er :: l₂ ∧ (∀ x ∈ l₁, p x = false) ∧
      modifyFirst p f l = l₁ ++ f er :: l₂ := by
  induction l with
  | nil => simp at hfind
  | cons x xs ih =>
    by_cases hx : p x
    · rw [List.find?_cons, hx] at hfind
      obtain rfl : x = er := by injection hfind
      exact ⟨[], xs, rfl, by simp, by simp [modifyFirst, hx]⟩
    · rw [List.find?_cons, Bool.of_not_eq_true hx] at hfind
      obtain ⟨l₁, l₂, hdec, hfail, hmf⟩ := ih hfind
      refine ⟨x :: l₁, l₂, by simp [hdec], ?_, ?_⟩
      · intro z hz
        rcases List.mem_cons.mp hz with rfl | hz'
        · exact Bool.of_not_eq_true hx
        · exact hfail z hz'
      · simp [modifyFirst, hx, hmf]

theorem find?_modifyFirst_id {α β : Type} [DecidableEq β]
    (q : α → Bool) (g : α → β) (l : List α) (er a : α)
    (hfind : l.find? q = some er)
    (hnodup : (l.map g).Nodup)
    (hqa : q a = true) :
    (modifyFirst (fun r => decide (g r = g er)) (fun _ => a) l).find? q = some a := by
  induction l with
  | nil => simp at hfind
  | cons x xs ih =>
    rw [List.map_cons] at hnodup
    have hnd := List.nodup_cons.mp hnodup
    by_cases hx : q x
    · rw [List.find?_cons, hx] at hfind
      obtain rfl : x = er := by injection hfind
      have hstep : modifyFirst (fun r => decide (g r = g x)) (fun _ => a) (x :: xs) = a :: xs := by
        simp [modifyFirst]
      rw [hstep, List.find?_cons, hqa]
    · rw [List.find?_cons, Bool.of_not_eq_true hx] at hfind
      have her : er ∈ xs := List.mem_of_find?_eq_some hfind
      have hger : g er ∈ xs.map g := List.mem_map_of_mem g her
      have hne : g x ≠ g er := fun he => hnd.1 (he ▸ hger)
      have hstep : modifyFirst (fun r => decide (g r = g er)) (fun _ => a) (x :: xs) =
          x :: modifyFirst (fun r => decide (g r = g er)) (fun _ => a) xs := by
        simp [modifyFirst, hne]
      rw [hstep, List.find?_cons, Bool.of_not_eq_true hx]
      exact ih hfind hnd.2

theorem modifyFirst_id_twice {α β : Type} [DecidableEq β]
    (p : α → Bool) (g : α → β) (l : List α) (er u : α)
    (hfind : l.find? p = some er)
    (hnodup : (l.map g).Nodup)
    (hgu : g u = g er) :
    modifyFirst (fun r => decide (g r = g er)) (fun _ => u)
      (modifyFirst p (fun _ => u) l) = modifyFirst p (fun _ => u) l := by
  induction l with
  | nil => simp at hfind
  | cons x xs ih =>
    rw [List.map_cons] at hnodup
    have hnd := List.nodup_cons.mp hnodup
    by_cases hx : p x
    · rw [List.find?_cons, hx] at hfind
      obtain rfl : x = er := by injection hfind
      simp [modifyFirst, hx, hgu]
    · rw [List.find?_cons, Bool.of_not_eq_true hx] at hfind
      have her : er ∈ xs := List.mem_of_find?_eq_some hfind
      have hger : g er ∈ xs.map g := List.mem_map_of_mem g her
      have hne : g x ≠ g er := fun he => hnd.1 (he ▸ hger)
      have hinner : modifyFirst p (fun _ => u) (x :: xs) =
          x :: modifyFirst p (fun _ => u) xs := by
        simp [modifyFirst, hx]
      rw [hinner]
      have houter : modifyFirst (fun r => decide (g r = g er)) (fun _ => u)
          (x :: modifyFirst p (fun _ => u) xs) =
          x :: modifyFirst (fun r => decide (g r = g er)) (fun _ => u)
            (modifyFirst p (fun _ => u) xs) := by
        simp [modifyFirst, hne]
      rw [houter, ih hfind hnd.2]

theorem eraseP_id_unique {α β : Type} [DecidableEq β] (g : α → β) (c : β) (l : List α)
    (hnodup : (l.map g).Nodup) (y : α)
    (hex : ∃ x ∈ l, g x = c)
    (hy : y ∈ l.eraseP fun z => decide (g z = c)) :
    g y ≠ c := by
  induction l with
  | nil => simp at hy
  | cons x xs ih =>
    rw [List.map_cons] at hnodup
    have hnd := List.nodup_cons.mp hnodup
    rw [List.eraseP_cons] at hy
    by_cases hx : g x = c
    · rw [show (decide (g x = c)) = true by simp [hx], cond_true] at hy
      intro hyc
      exact hnd.1 (by
        have hmem : g y ∈ xs.map g := List.mem_map_of_mem g hy
        rwa [hyc, ← hx] at hmem)
    · rw [show (decide (g x = c)) = false by simp [hx], cond_false] at hy
      rcases List.mem_cons.mp hy with rfl | hy'
      · exact hx
      · obtain ⟨z, hz, hgz⟩ := hex
        rcases List.mem_cons.mp hz with rfl | hz'
        · exact absurd hgz hx
        · exact ih hnd.2 ⟨z, hz', hgz⟩ hy'

theorem streakLoop_all_good (l : List AttendanceRecord)
    (h : ∀ r ∈ l, goodStatus r = true) : streakLoop l = l.length := by
  induction l with
  | nil => rfl
  | cons r rest ih =>
    simp only [streakLoop, h r (List.mem_cons_self r rest), if_true, List.length_cons]
    rw [ih fun z hz => h z (List.mem_cons_of_mem r hz)]
    omega

theorem insertByDateDesc_length (r : AttendanceRecord) (l : List AttendanceRecord) :
    (insertByDateDesc r l).length = l.length + 1 := by
  induction l with
  | nil => rfl
  | cons x xs ih => by_cases hx : x.date < r.date <;> simp [insertByDateDesc, hx, ih]

theorem mem_insertByDateDesc {r x : AttendanceRecord} {l : List AttendanceRecord}
    (h : x ∈ insertByDateDesc r l) : x = r ∨ x ∈ l := by
  induction l with
  | nil => simpa [insertByDateDesc] using h
  | cons y ys ih =>
    by_cases hy : y.date < r.date
    · simp only [insertByDateDesc, if_pos hy] at h
      rcases List.mem_cons.mp h with rfl | h' <;> simp_all
    · simp only [insertByDateDesc, if_neg hy] at h
      rcases List.mem_cons.mp h with rfl | h'
      · simp
      · rcases ih h' with h'' | h'' <;> simp_all

theorem sortByDateDesc_length (l : List AttendanceRecord) :
    (sortByDateDesc l).length = l.length := by
  induction l with
  | nil => rfl
  | cons x xs ih =>
    show (insertByDateDesc x (sortByDateDesc xs)).length = xs.length + 1
    rw [insertByDateDesc_length, ih]

theorem mem_sortByDateDesc {x : AttendanceRecord} {l : List AttendanceRecord}
    (h : x ∈ sortByDateDesc l) : x ∈ l := by
  induction l with
  | nil => simp [sortByDateDesc] at h
  | cons y ys ih =>
    have h' : x ∈ insertByDateDesc y (sortByDateDesc ys) := h
    rcases mem_insertByDateDesc h' with rfl | h''
    · exact List.mem_cons_self x ys
    · exact List.mem_cons_of_mem y (ih h'')

/-- The code's streak is just the number of present/late records in the
range: the loop's `break` branch is unreachable after the filter. -/
theorem currentStreakOf_eq_count (records : List AttendanceRecord) :
    currentStreakOf records = (records.filter goodStatus).length := by
  unfold currentStreakOf
  rw [streakLoop_all_good, sortByDateDesc_length]
  intro r hr
  exact (List.mem_filter.mp (mem_sortByDateDesc hr)).2

theorem spoofLoop_iff (dist : GeoDist) (prev : Location) (rest : List Location) :
    spoofLoop dist prev rest = true ↔
      ∃ i p c, (prev :: rest)[i]? = some p ∧ (prev :: rest)[i + 1]? = some c ∧
        spoofPair dist p c = true := by
  induction rest generalizing prev with
  | nil =>
    simp only [spoofLoop, Bool.false_eq_true, false_iff]
    rintro ⟨i, p, c, h1, h2, h3⟩
    rcases i with _ | i <;> simp at h2
  | cons c tl ih =>
    constructor
    · intro h
      simp only [spoofLoop] at h
      by_cases hp : spoofPair dist prev c = true
      · exact ⟨0, prev, c, by simp, by simp, hp⟩
      · rw [if_neg hp] at h
        obtain ⟨i, p', c', h1, h2, h3⟩ := (ih c).mp h
        refine ⟨i + 1, p', c', ?_, ?_, h3⟩
        · simpa [List.getElem?_cons_succ] using h1
        · simpa [List.getElem?_cons_succ] using h2
    · rintro ⟨i, p', c', h1, h2, h3⟩
      simp only [spoofLoop]
      rcases i with _ | i
      · simp only [List.getElem?_cons_zero, Option.some.injEq] at h1
        simp only [List.getElem?_cons_succ, List.getElem?_cons_zero,
          Option.some.injEq] at h2
        subst h1; subst h2
        simp [h3]
      · have h1' : (c :: tl)[i]? = some p' := by
          simpa [List.getElem?_cons_succ] using h1
        have h2' : (c :: tl)[i + 1]? = some c' := by
          simpa [List.getElem?_cons_succ] using h2
        have hpair : spoofLoop dist c tl = true := (ih c).mpr ⟨i, p', c', h1', h2', h3⟩
        by_cases hp : spoofPair dist prev c = true <;> simp [hp, hpair]

theorem detectLocationSpoofing_iff (dist : GeoDist) (locs : List Location) :
    detectLocationSpoofing dist locs = true ↔
      ∃ i p c, locs[i]? = some p ∧ locs[i + 1]? = some c ∧
        spoofPair dist p c = true := by
  match locs with
  | [] =>
    simp only [detectLocationSpoofing, List.length_nil]
    norm_num
    rintro i p c h
    simp at h
  | [x] =>
    simp only [detectLocationSpoofing, List.length_cons, List.length_nil]
    norm_num
    rintro i p c h1 h2
    rcases i with _ | i <;> simp at h2
  | x :: y :: tl =>
    have hlen : ¬((x :: y :: tl).length < 2) := by simp
    simp only [detectLocationSpoofing, if_neg hlen]
    exact spoofLoop_iff dist x (y :: tl)

/-- Source `verifyLocation` reports `verified` only when the geofence and the
sample exist, the accuracy check passes and the sample is in the fence. -/
theorem verifyLocation_verified_iff (env : AttEnv) :
    (verifyLocation env).verified = true ↔
      ∃ g s, env.activeGeofence = some g ∧ env.currentSample = some s ∧
        validateLocationAccuracy s = true ∧ isWithinGeofence env.dist s g = true := by
  unfold verifyLocation
  cases hg : env.activeGeofence with
  | none => simp
  | some g =>
    cases hs : env.currentSample with
    | none => simp
    | some s =>
      by_cases hacc : validateLocationAccuracy s = true
      · simp only [hacc, Bool.not_true, Bool.false_eq_true, if_false]
        by_cases hin : isWithinGeofence env.dist s g = true <;> simp [hin, hacc]
      · simp [Bool.of_not_eq_true hacc]

/-- Case analysis of `markAttendance`: either it fails and leaves the
store unchanged, or it succeeds, all preconditions held, and the written
record's key fields are pinned down. -/
theorem markAttendance_cases (env : AttEnv) (sid : String)
    (records : List AttendanceRecord) :
    ((markAttendance env sid records).1.success = false ∧
      (markAttendance env sid records).2 = records) ∨
    ((markAttendance env sid records).1.success = true ∧
      ∃ p, getCurrentPeriod env.periods env.now = some p ∧
        (getAttendanceWindow p env.now).canCheckIn = true ∧
        (verifyLocation env).verified = true ∧
        ((getTodayAttendance records sid env.today p.period).map
            (fun er => er.checkInTime.isSome)).getD false = false ∧
        ∃ rec, (markAttendance env sid records).1.record = some rec ∧
          rec.studentId = sid ∧ rec.date = env.today ∧
          rec.periodNumber = p.period ∧ rec.checkInTime = some env.nowTime ∧
          rec.status = (if env.now > timeToMinutes p.start_time + 5
            then AttStatus.late else AttStatus.present) ∧
          (markAttendance env sid records).2 =
            storeRecord (getTodayAttendance records sid env.today p.period) rec records) := by
  cases hcp : getCurrentPeriod env.periods env.now with
  | none =>
    left
    constructor <;> simp [markAttendance, getPeriodStatus_currentPeriod, hcp]
  | some p =>
    by_cases hact : p.is_active = true
    · by_cases hwin : (getAttendanceWindow p env.now).canCheckIn = true
      · by_cases hex : ((getTodayAttendance records sid env.today p.period).map
            (fun er => er.checkInTime.isSome)).getD false = true
        · left
          constructor <;>
            simp [markAttendance, getPeriodStatus_currentPeriod, hcp, hact, hwin, hex]
        · have hex' := Bool.of_not_eq_true hex
          by_cases hver : (verifyLocation env).verified = true
          · right
            have hM : markAttendance env sid records =
                (⟨true,
                  "Attendance marked successfully for " ++ p.label ++
                    (if decide (env.now > timeToMinutes p.start_time + 5)
                      then " (Late)" else ""),
                  some (builtRecord env sid p
                    (getTodayAttendance records sid env.today p.period))⟩,
                 storeRecord (getTodayAttendance records sid env.today p.period)
                   (builtRecord env sid p (getTodayAttendance records sid env.today p.period))
                   records) := by
              simp [markAttendance, getPeriodStatus_currentPeriod, hcp, hact, hwin,
                hex', hver]
            refine ⟨by rw [hM], p, rfl, hwin, hver, hex',
              builtRecord env sid p (getTodayAttendance records sid env.today p.period),
              by rw [hM], rfl, rfl, rfl, rfl, ?_, by rw [hM]⟩
            simp [builtRecord]
          · left
            have hver' := Bool.of_not_eq_true hver
            constructor <;>
              simp [markAttendance, getPeriodStatus_currentPeriod, hcp, hact, hwin, hex',
                hver']
      · left
        have hwin' := Bool.of_not_eq_true hwin
        constructor <;>
          simp [markAttendance, getPeriodStatus_currentPeriod, hcp, hact, hwin']
    · left
      have hact' := Bool.of_not_eq_true hact
      constructor <;> simp [markAttendance, getPeriodStatus_currentPeriod, hcp, hact']

/-- A failed `markAttendance` never writes. -/
theorem markAttendance_fail_frame (env : AttEnv) (sid : String)
    (records : List AttendanceRecord)
    (h : (markAttendance env sid records).1.success = false) :
    (markAttendance env sid records).2 = records := by
  rcases markAttendance_cases env sid records with ⟨_, hf⟩ | ⟨hs, _⟩
  · exact hf
  · rw [hs] at h; cases h

/-- After a successful `markAttendance`, the store holds a record for
the key with the fresh `checkInTime` and the computed status. -/
theorem markAttendance_success_found (env : AttEnv) (sid : String)
    (records : List AttendanceRecord)
    (hnd : (records.map fun r => r.id).Nodup)
    (hsucc : (markAttendance env sid records).1.success = true) :
    ∃ p rec, getCurrentPeriod env.periods env.now = some p ∧
      (markAttendance env sid records).1.record = some rec ∧
      getTodayAttendance (markAttendance env sid records).2 sid env.today p.period =
        some rec ∧
      rec.checkInTime = some env.nowTime ∧
      rec.status = (if env.now > timeToMinutes p.start_time + 5
        then AttStatus.late else AttStatus.present) := by
  rcases markAttendance_cases env sid records with ⟨hf, _⟩ |
    ⟨hs, p, hcp, hwin, hver, hex, rec, hrec, hsid, hdate, hpn, hcit, hst, hstore⟩
  · rw [hf] at hsucc; cases hsucc
  · refine ⟨p, rec, hcp, hrec, ?_, hcit, hst⟩
    rw [hstore]
    have hkey : attKey sid env.today p.period rec = true := by
      simp [attKey, hsid, hdate, hpn]
    cases hfind : getTodayAttendance records sid env.today p.period with
    | none =>
      show (storeRecord none rec records).find? (attKey sid env.today p.period) = some rec
      unfold storeRecord
      exact find?_append_right _ records rec hfind hkey
    | some er =>
      show (storeRecord (some er) rec records).find? (attKey sid env.today p.period) =
        some rec
      unfold storeRecord
      exact find?_modifyFirst_id (attKey sid env.today p.period) (fun r => r.id)
        records er rec hfind hnd hkey

theorem deact_map_id (l : List RegisteredLocation) :
    ((l.map fun loc => { loc with isActive := false }).map fun loc => loc.id) =
      l.map fun loc => loc.id := by
  rw [List.map_map]; rfl

theorem deact_all_inactive (l : List RegisteredLocation) :
    ∀ loc ∈ l.map fun loc => ({ loc with isActive := false } : RegisteredLocation),
      loc.isActive = false := by
  intro loc hloc
  obtain ⟨y, _, rfl⟩ := List.mem_map.mp hloc
  rfl

theorem geoInv_register (s : GeoState) (name : String) (lat lon : Int)
    (r newId now : Nat) (hInv : GeoInv s)
    (hfresh : newId ∉ s.registeredLocations.map fun loc => loc.id) :
    GeoInv (registerLocation name lat lon r newId now s).2 := by
  obtain ⟨hnd, hone, hact⟩ := hInv
  unfold registerLocation GeoInv
  refine ⟨?_, ?_, ?_⟩
  · rw [List.map_append, deact_map_id]
    simp only [List.map_cons, List.map_nil]
    rw [List.nodup_append]
    refine ⟨hnd, by simp, ?_⟩
    intro a ha hmem
    simp only [List.mem_singleton] at hmem
    exact hfresh (hmem ▸ ha)
  · rw [List.filter_append]
    rw [List.filter_eq_nil_iff.mpr fun z hz => by simp [deact_all_inactive _ z hz]]
    simp
  · intro loc hloc hactive
    rcases List.mem_append.mp hloc with hmem | hmem
    · rw [deact_all_inactive _ loc hmem] at hactive; cases hactive
    · simp only [List.mem_singleton] at hmem
      subst hmem; rfl

theorem geoInv_setActive (s : GeoState) (locationId now : Nat) (hInv : GeoInv s) :
    GeoInv (setActiveLocation locationId now s).2 := by
  obtain ⟨hnd, hone, hact⟩ := hInv
  unfold setActiveLocation
  cases hfind : s.registeredLocations.find? fun loc => decide (loc.id = locationId) with
  | none => exact ⟨hnd, hone, hact⟩
  | some found =>
    refine ⟨?_, ?_, ?_⟩ <;> dsimp only
    · rw [map_modifyFirst (fun loc : RegisteredLocation => decide (loc.id = locationId))
        (fun loc => { loc with isActive := true, updatedAt := now })
        (fun loc => loc.id) (fun x => rfl), deact_map_id]
      exact hnd
    · exact filter_modifyFirst_le_one _ _ _ _ (deact_all_inactive _)
    · intro loc hloc hactive
      rcases mem_modifyFirst hloc with hmem | ⟨x, _, hpx, rfl⟩
      · rw [deact_all_inactive _ loc hmem] at hactive; cases hactive
      · have hid : x.id = locationId := of_decide_eq_true hpx
        show some locationId = _
        rw [← hid]

theorem geoInv_update (s : GeoState) (locationId : Nat) (u : LocationUpdates) (now : Nat)
    (hInv : GeoInv s) (hu : u.isActive = none) :
    GeoInv (updateLocation locationId u now s).2 := by
  obtain ⟨hnd, hone, hact⟩ := hInv
  unfold updateLocation
  cases hfind : s.registeredLocations.find? fun loc => decide (loc.id = locationId) with
  | none => exact ⟨hnd, hone, hact⟩
  | some found =>
    have hpres : ∀ x : RegisteredLocation, (applyUpdates u now x).isActive = x.isActive := by
      intro x; simp [applyUpdates, hu]
    refine ⟨?_, ?_, ?_⟩ <;> dsimp only
    · rw [map_modifyFirst (fun loc : RegisteredLocation => decide (loc.id = locationId))
        (applyUpdates u now) (fun loc => loc.id) (fun x => rfl)]
      exact hnd
    · rw [filter_modifyFirst_length_eq _ _ _ hpres]
      exact hone
    · intro loc hloc hactive
      rcases mem_modifyFirst hloc with hmem | ⟨x, hx, _, rfl⟩
      · exact hact loc hmem hactive
      · have hxa : x.isActive = true := by rw [← hpres x]; exact hactive
        simpa using hact x hx hxa

theorem geoInv_delete (s : GeoState) (locationId : Nat) (hInv : GeoInv s) :
    GeoInv (deleteLocation locationId s).2 := by
  obtain ⟨hnd, hone, hact⟩ := hInv
  unfold deleteLocation
  cases hfind : s.registeredLocations.find? fun loc => decide (loc.id = locationId) with
  | none => exact ⟨hnd, hone, hact⟩
  | some found =>
    dsimp only
    have hfmem : found ∈ s.registeredLocations := List.mem_of_find?_eq_some hfind
    have hfid : found.id = locationId := by simpa using List.find?_some hfind
    have hsub : List.Sublist
        (s.registeredLocations.eraseP fun loc => decide (loc.id = locationId))
        s.registeredLocations := List.eraseP_sublist _
    by_cases hactid : s.activeLocationId = some locationId
    · rw [if_pos hactid]
      cases hrem : s.registeredLocations.eraseP fun loc => decide (loc.id = locationId) with
      | nil => exact ⟨by simp, by simp, by simp⟩
      | cons first rest =>
        have hinactive : ∀ y ∈ first :: rest, y.isActive = false := by
          intro y hy
          cases hya : y.isActive
          · rfl
          · have hymem : y ∈ s.registeredLocations.eraseP
                fun loc => decide (loc.id = locationId) := hrem ▸ hy
            have hyne : y.id ≠ locationId :=
              eraseP_id_unique (fun loc => loc.id) locationId _ hnd y
                ⟨found, hfmem, hfid⟩ hymem
            have : s.activeLocationId = some y.id :=
              hact y (List.mem_of_mem_eraseP hymem) hya
            rw [hactid] at this
            exact absurd (Option.some.inj this).symm hyne
        have hndrem : ((first :: rest).map fun loc => loc.id).Nodup := by
          rw [← hrem]
          exact hnd.sublist (hsub.map _)
        refine ⟨hndrem, ?_, ?_⟩
        · rw [List.filter_cons]
          have : ({ first with isActive := true } : RegisteredLocation).isActive = true := rfl
          rw [List.filter_eq_nil_iff.mpr fun z hz => by
            simp [hinactive z (List.mem_cons_of_mem first hz)]]
          simp [this]
        · intro loc hloc hactive
          rcases List.mem_cons.mp hloc with rfl | hmem
          · rfl
          · rw [hinactive loc (List.mem_cons_of_mem first hmem)] at hactive
            cases hactive
    · rw [if_neg hactid]
      refine ⟨hnd.sublist (hsub.map _), le_trans (hsub.filter _).length_le hone, ?_⟩
      intro loc hloc hactive
      exact hact loc (List.mem_of_mem_eraseP hloc) hactive

theorem geoInv_step (s : GeoState) (op : GeoOp) (hInv : GeoInv s)
    (hok : geoOpOk s op) : GeoInv (geoStep s op) := by
  cases op with
  | register name lat lon r newId now => exact geoInv_register s name lat lon r newId now hInv hok
  | setActive id now => exact geoInv_setActive s id now hInv
  | update id u now => exact geoInv_update s id u now hInv hok
  | delete id => exact geoInv_delete s id hInv

theorem geoInv_run (ops : List GeoOp) :
    ∀ s : GeoState, GeoInv s → geoTraceOk s ops → GeoInv (geoRun s ops) := by
  induction ops with
  | nil => exact fun s h _ => h
  | cons op ops ih =>
    intro s h hok
    exact ih _ (geoInv_step s op h hok.1) hok.2

/-! ### Claim theorems -/

/-- C2: for every period and instant, `canCheckIn` is true iff the
period is active and the instant lies in the inclusive window
`[start_time − 5, start_time + 10]`; for an 08:45 start check-in is
allowed at 08:40 and 08:55 and refused at 08:39 and 08:56; inactive
periods never allow check-in. -/
theorem checkin_window_spec :
    (∀ (p : ClassPeriod) (t : Int),
      (getAttendanceWindow p t).canCheckIn = true ↔
        p.is_active = true ∧
          timeToMinutes p.start_time - 5 ≤ t ∧ t ≤ timeToMinutes p.start_time + 10) ∧
    ((getAttendanceWindow period845 520).canCheckIn = true ∧
      (getAttendanceWindow period845 535).canCheckIn = true ∧
      (getAttendanceWindow period845 519).canCheckIn = false ∧
      (getAttendanceWindow period845 536).canCheckIn = false) ∧
    (∀ (p : ClassPeriod) (t : Int), p.is_active = false →
      (getAttendanceWindow p t).canCheckIn = false) := by
  refine ⟨?_, by decide, ?_⟩
  · intro p t
    simp only [getAttendanceWindow, Bool.and_eq_true, decide_eq_true_eq]
    tauto
  · intro p t hp
    simp [getAttendanceWindow, hp]

/-- C2 witness: the 10:35 break never allows check-in, here at 10:40. -/
theorem checkin_window_spec_witness :
    (getAttendanceWindow breakPeriod 640).canCheckIn = false :=
  checkin_window_spec.2.2 breakPeriod 640 rfl

/-- C3: `getCurrentPeriod` returns at most one period (it is a partial
function into `Option`), any returned period satisfies
`start_time ≤ t < end_time`, and at exactly `end_time` a period is no
longer current. -/
theorem currentPeriod_bounds_spec :
    (∀ (periods : List ClassPeriod) (t : Int) (p : ClassPeriod),
        getCurrentPeriod periods t = some p →
        timeToMinutes p.start_time ≤ t ∧ t < timeToMinutes p.end_time) ∧
    (∀ (periods : List ClassPeriod) (p : ClassPeriod),
        getCurrentPeriod periods (timeToMinutes p.end_time) ≠ some p) := by
  have hmain : ∀ (periods : List ClassPeriod) (t : Int) (p : ClassPeriod),
      getCurrentPeriod periods t = some p →
      timeToMinutes p.start_time ≤ t ∧ t < timeToMinutes p.end_time := by
    intro periods t p h
    have hp := List.find?_some h
    simp only [Bool.and_eq_true, decide_eq_true_eq] at hp
    exact hp
  refine ⟨hmain, ?_⟩
  intro periods p h
  have := hmain periods _ p h
  omega

/-- C3 witness: at 08:50 the current period of the static timetable is
Period 1 and 08:45 ≤ 08:50 < 09:45 holds. -/
theorem currentPeriod_bounds_witness :
    timeToMinutes period845.start_time ≤ 530 ∧
      (530 : Int) < timeToMinutes period845.end_time :=
  currentPeriod_bounds_spec.1 PERIOD_TIMETABLE 530 period845 (by decide)

/-- C4: `isWithinGeofence` is true iff the distance to the center is at
most the radius (a sample exactly `radius` meters away is inside, one
meter beyond is outside), and `getDistanceFromGeofence` returns that
same distance. -/
theorem geofence_boundary_spec :
    ∀ (dist : GeoDist) (loc : Location) (g : GeofenceArea),
      (isWithinGeofence dist loc g = true ↔
        dist (loc.latitude, loc.longitude) (g.centerLat, g.centerLon) ≤ g.radius) ∧
      getDistanceFromGeofence dist loc g =
        dist (loc.latitude, loc.longitude) (g.centerLat, g.centerLon) ∧
      (dist (loc.latitude, loc.longitude) (g.centerLat, g.centerLon) = g.radius →
        isWithinGeofence dist loc g = true) ∧
      (dist (loc.latitude, loc.longitude) (g.centerLat, g.centerLon) = g.radius + 1 →
        isWithinGeofence dist loc g = false) := by
  intro dist loc g
  refine ⟨by simp [isWithinGeofence], rfl, ?_, ?_⟩
  · intro h; simp [isWithinGeofence, h]
  · intro h; simp [isWithinGeofence, h]

/-- C4 witness: a sample exactly 100 m from the center of a 100 m fence
is inside. -/
theorem geofence_boundary_witness :
    isWithinGeofence dist100 sampleOK geofence100 = true :=
  (geofence_boundary_spec dist100 sampleOK geofence100).2.2.1 rfl

/-- C7: evaluation of `validateLocationAccuracy`.  A missing accuracy
and an accuracy over 100 m are rejected as specified, but an accuracy
of exactly 0 m is ALSO rejected — the source's truthiness test
`location.accuracy ? ... : false` treats the number `0` like a missing
value, contradicting its own comment ("reject ... > 100m"). -/
theorem validateAccuracy_eval :
    validateLocationAccuracy ⟨0, 0, some 0, 0⟩ = false ∧
    validateLocationAccuracy ⟨0, 0, none, 0⟩ = false ∧
    validateLocationAccuracy ⟨0, 0, some 100, 0⟩ = true ∧
    validateLocationAccuracy ⟨0, 0, some 101, 0⟩ = false ∧
    validateLocationAccuracy ⟨0, 0, some 1, 0⟩ = true := by
  decide

/-- C5 (amended): the spoofing detector flags iff some consecutive pair
has non-negative elapsed time and implied speed strictly over 50 m/s —
`1000·distance > 50·elapsed-ms` — so a zero-elapsed pair with positive
distance is flagged (JS `Infinity > 50`); the spec's 10 km / 60 s pair
is flagged and the 10 km / 3600 s pair is not. -/
theorem detectSpoofing_spec :
    (∀ (dist : GeoDist) (locs : List Location),
      detectLocationSpoofing dist locs = true ↔
        ∃ i prev curr, locs[i]? = some prev ∧ locs[i + 1]? = some curr ∧
          0 ≤ curr.timestamp - prev.timestamp ∧
          50 * (curr.timestamp - prev.timestamp) <
            1000 * ((dist (prev.latitude, prev.longitude)
              (curr.latitude, curr.longitude) : Nat) : Int)) ∧
    detectLocationSpoofing dist10k [locT 0 0, locT 1 60000] = true ∧
    detectLocationSpoofing dist10k [locT 0 0, locT 1 3600000] = false ∧
    detectLocationSpoofing dist10k [locT 0 0, locT 1 0] = true := by
  refine ⟨?_, by decide, by decide, by decide⟩
  intro dist locs
  rw [detectLocationSpoofing_iff]
  constructor
  · rintro ⟨i, p, c, h1, h2, h3⟩
    unfold spoofPair at h3
    simp only [decide_eq_true_eq] at h3
    exact ⟨i, p, c, h1, h2, h3.1, h3.2⟩
  · rintro ⟨i, p, c, h1, h2, h3, h4⟩
    refine ⟨i, p, c, h1, h2, ?_⟩
    unfold spoofPair
    simp only [decide_eq_true_eq]
    exact ⟨h3, h4⟩

/-- C5 counterexample: a consecutive pair with zero elapsed time is NOT
always flagged — two identical samples with identical timestamps have
zero elapsed time and zero distance, and the code does not flag them
(JS computes `0 / 0 = NaN` and `NaN > 50` is false). -/
theorem detectSpoofing_zero_zero_cex :
    (locT 0 1000).timestamp - (locT 0 1000).timestamp = 0 ∧
    dist10k ((locT 0 1000).latitude, (locT 0 1000).longitude)
      ((locT 0 1000).latitude, (locT 0 1000).longitude) = 0 ∧
    detectLocationSpoofing dist10k [locT 0 1000, locT 0 1000] = false := by
  decide

/-- C5 witness: the general characterization instantiated on the 60 s
10 km history: pair 0 satisfies the speed bound, so the detector flags. -/
theorem detectSpoofing_spec_witness :
    detectLocationSpoofing dist10k [locT 0 0, locT 1 60000] = true :=
  (detectSpoofing_spec.1 dist10k [locT 0 0, locT 1 60000]).mpr
    ⟨0, locT 0 0, locT 1 60000, by decide, by decide, by decide, by decide⟩

/-- C6: whenever `markAttendance` succeeds, the returned and stored
record's status is `late` iff the check-in minute is strictly later
than `start_time + 5`, and `present` otherwise; for the 08:45 period a
check-in at 08:50 is `present` and at 08:51 is `late`. -/
theorem late_classification_spec :
    (∀ (env : AttEnv) (sid : String) (records : List AttendanceRecord),
      (records.map fun r => r.id).Nodup →
      (markAttendance env sid records).1.success = true →
      ∃ p rec, getCurrentPeriod env.periods env.now = some p ∧
        (markAttendance env sid records).1.record = some rec ∧
        getTodayAttendance (markAttendance env sid records).2 sid env.today p.period =
          some rec ∧
        (rec.status = AttStatus.late ↔ env.now > timeToMinutes p.start_time + 5) ∧
        (rec.status = AttStatus.present ↔
          ¬(env.now > timeToMinutes p.start_time + 5))) ∧
    ((markAttendance (envAt 530) "s1" []).1.record.map fun r => r.status) =
      some AttStatus.present ∧
    ((markAttendance (envAt 531) "s1" []).1.record.map fun r => r.status) =
      some AttStatus.late := by
  refine ⟨?_, by decide, by decide⟩
  intro env sid records hnd hsucc
  obtain ⟨p, rec, hcp, hrec, hfound, _, hst⟩ :=
    markAttendance_success_found env sid records hnd hsucc
  refine ⟨p, rec, hcp, hrec, hfound, ?_, ?_⟩
  · rw [hst]
    by_cases h : env.now > timeToMinutes p.start_time + 5 <;> simp [h]
  · rw [hst]
    by_cases h : env.now > timeToMinutes p.start_time + 5 <;> simp [h]

/-- C6 witness: the general statement instantiated at the 08:51 call. -/
theorem late_classification_witness :
    ∃ p rec, getCurrentPeriod (envAt 531).periods (envAt 531).now = some p ∧
      (markAttendance (envAt 531) "s1" []).1.record = some rec ∧
      getTodayAttendance (markAttendance (envAt 531) "s1" []).2 "s1"
        (envAt 531).today p.period = some rec ∧
      (rec.status = AttStatus.late ↔ (envAt 531).now > timeToMinutes p.start_time + 5) ∧
      (rec.status = AttStatus.present ↔
        ¬((envAt 531).now > timeToMinutes p.start_time + 5)) :=
  late_classification_spec.1 (envAt 531) "s1" [] (by decide) (by decide)

theorem canCheckIn_iff (p : ClassPeriod) (t : Int) :
    (getAttendanceWindow p t).canCheckIn = true ↔
      p.is_active = true ∧
        timeToMinutes p.start_time - 5 ≤ t ∧ t ≤ timeToMinutes p.start_time + 10 := by
  simp only [getAttendanceWindow, Bool.and_eq_true, decide_eq_true_eq]
  tauto

theorem canCheckOut_iff (p : ClassPeriod) (t : Int) :
    (getAttendanceWindow p t).canCheckOut = true ↔
      p.is_active = true ∧
        timeToMinutes p.start_time ≤ t ∧ t ≤ timeToMinutes p.end_time := by
  simp only [getAttendanceWindow, Bool.and_eq_true, decide_eq_true_eq]
  tauto

/-- C8: `markCheckOut` succeeds exactly when the key has a checked-in
record without a check-out and `canCheckOut` holds (active period, now
in the inclusive `[start_time, end_time]`); on success it rewrites that
one record in place, changing only `checkOutTime` and `updatedAt`; on
failure the store is untouched. -/
theorem markCheckOut_spec :
    ∀ (env : AttEnv) (sid : String) (records : List AttendanceRecord),
      (records.map fun r => r.id).Nodup →
      ((markCheckOut env sid records).1.success = true ↔
        ∃ p r, getCurrentPeriod env.periods env.now = some p ∧
          getTodayAttendance records sid env.today p.period = some r ∧
          r.checkInTime.isSome = true ∧ r.checkOutTime = none ∧
          p.is_active = true ∧
          timeToMinutes p.start_time ≤ env.now ∧
          env.now ≤ timeToMinutes p.end_time) ∧
      ((markCheckOut env sid records).1.success = true →
        ∃ l₁ r l₂, records = l₁ ++ r :: l₂ ∧
          (markCheckOut env sid records).2 =
            l₁ ++
              { r with checkOutTime := some env.nowTime, updatedAt := env.nowIso } ::
              l₂) ∧
      ((markCheckOut env sid records).1.success = false →
        (markCheckOut env sid records).2 = records) := by
  intro env sid records hnd
  cases hcp : getCurrentPeriod env.periods env.now with
  | none =>
    have hM : markCheckOut env sid records =
        (⟨false, "No active period found", none⟩, records) := by
      simp [markCheckOut, getPeriodStatus_currentPeriod, hcp]
    rw [hM]
    refine ⟨?_, by simp, fun _ => rfl⟩
    simp only [Bool.false_eq_true, false_iff]
    rintro ⟨p, r, hp, -⟩
    cases hp
  | some p =>
    cases hfindr : getTodayAttendance records sid env.today p.period with
    | none =>
      have hM : markCheckOut env sid records =
          (⟨false, "No check-in record found for this period", none⟩, records) := by
        simp only [markCheckOut, getPeriodStatus_currentPeriod, hcp, hfindr]
      rw [hM]
      refine ⟨?_, by simp, fun _ => rfl⟩
      simp only [Bool.false_eq_true, false_iff]
      rintro ⟨p', r, hp', hr, -⟩
      obtain rfl : p = p' := by injection hp'
      rw [hfindr] at hr
      cases hr
    | some er =>
      by_cases hcin : er.checkInTime.isSome = true
      · by_cases hcout : er.checkOutTime.isSome = true
        · have hM : markCheckOut env sid records =
              (⟨false, "Already checked out for this period", none⟩, records) := by
            simp [markCheckOut, getPeriodStatus_currentPeriod, hcp, hfindr, hcin, hcout]
          rw [hM]
          refine ⟨?_, by simp, fun _ => rfl⟩
          simp only [Bool.false_eq_true, false_iff]
          rintro ⟨p', r, hp', hr, -, hno, -⟩
          obtain rfl : p = p' := by injection hp'
          rw [hfindr] at hr
          obtain rfl : er = r := by injection hr
          rw [hno] at hcout
          cases hcout
        · by_cases hwin : (getAttendanceWindow p env.now).canCheckOut = true
          · -- success branch
            have hcout' : er.checkOutTime.isSome = false := Bool.of_not_eq_true hcout
            have hM : markCheckOut env sid records =
                (⟨true, "Checked out successfully from " ++ p.label,
                  some
                    { er with
                      checkOutTime := some env.nowTime, updatedAt := env.nowIso }⟩,
                 modifyFirst (fun r => decide (r.id = er.id))
                   (fun _ =>
                     { er with
                       checkOutTime := some env.nowTime, updatedAt := env.nowIso })
                   (modifyFirst (attKey sid env.today p.period)
                     (fun _ =>
                       { er with
                         checkOutTime := some env.nowTime, updatedAt := env.nowIso })
                     records)) := by
              simp [markCheckOut, getPeriodStatus_currentPeriod, hcp, hfindr, hcin,
                hcout', hwin]
            have hsecond := modifyFirst_id_twice (attKey sid env.today p.period)
              (fun r => r.id) records er
              { er with
                checkOutTime := some env.nowTime, updatedAt := env.nowIso }
              hfindr hnd rfl
            refine ⟨?_, ?_, ?_⟩
            · rw [hM]
              simp only [true_iff]
              obtain ⟨hact, h1, h2⟩ := (canCheckOut_iff p env.now).mp hwin
              have hnone : er.checkOutTime = none := by
                cases hoc : er.checkOutTime with
                | none => rfl
                | some v => rw [hoc] at hcout'; simp at hcout'
              exact ⟨p, er, rfl, hfindr, hcin, hnone, hact, h1, h2⟩
            · intro _
              obtain ⟨l₁, l₂, hdec, -, hmf⟩ := modifyFirst_decomp
                (attKey sid env.today p.period)
                (fun _ =>
                  { er with
                    checkOutTime := some env.nowTime, updatedAt := env.nowIso })
                records er hfindr
              refine ⟨l₁, er, l₂, hdec, ?_⟩
              rw [hM]
              show modifyFirst (fun r : AttendanceRecord => decide (r.id = er.id)) _ _ = _
              rw [hsecond, hmf]
            · intro hfalse
              rw [hM] at hfalse
              cases hfalse
          · have hwin' : (getAttendanceWindow p env.now).canCheckOut = false :=
              Bool.of_not_eq_true hwin
            have hcout' : er.checkOutTime.isSome = false := Bool.of_not_eq_true hcout
            have hM : markCheckOut env sid records =
                (⟨false, "Check-out not allowed at this time", none⟩, records) := by
              simp [markCheckOut, getPeriodStatus_currentPeriod, hcp, hfindr, hcin,
                hcout', hwin']
            rw [hM]
            refine ⟨?_, by simp, fun _ => rfl⟩
            simp only [Bool.false_eq_true, false_iff]
            rintro ⟨p', r, hp', hr, -, -, hact, h1, h2⟩
            obtain rfl : p = p' := by injection hp'
            rw [(canCheckOut_iff p env.now).mpr ⟨hact, h1, h2⟩] at hwin'
            cases hwin'
      · have hcin' : er.checkInTime.isSome = false := Bool.of_not_eq_true hcin
        have hM : markCheckOut env sid records =
            (⟨false, "No check-in record found for this period", none⟩, records) := by
          simp [markCheckOut, getPeriodStatus_currentPeriod, hcp, hfindr, hcin']
        rw [hM]
        refine ⟨?_, by simp, fun _ => rfl⟩
        simp only [Bool.false_eq_true, false_iff]
        rintro ⟨p', r, hp', hr, hin, -⟩
        obtain rfl : p = p' := by injection hp'
        rw [hfindr] at hr
        obtain rfl : er = r := by injection hr
        rw [hin] at hcin'
        cases hcin'

/-- C8 witness: checking out at 09:00 after the successful 08:50
check-in succeeds. -/
theorem markCheckOut_spec_witness :
    (markCheckOut (envLater 540) "s1" chkRecords).1.success = true :=
  (markCheckOut_spec (envLater 540) "s1" chkRecords (by decide)).1.mpr
    ⟨period845, builtRecord (envAt 530) "s1" period845 none,
      by decide, by decide, by decide, by decide, by decide, by decide, by decide⟩

/-- C9 counterexample: register A (id 1) and B (id 2) — B ends up
active — then `updateLocation 1 { isActive: true }`: both locations are
now active, so after a sequence of the four registered-location
operations the mutual-exclusion invariant is broken and the flag
disagrees with `activeLocationId`. -/
theorem updateLocation_two_active_cex :
    (cexGeoState.registeredLocations.filter fun loc => loc.isActive).length = 2 ∧
    cexGeoState.activeLocationId = some 2 ∧
    ¬GeoInv cexGeoState := by decide

/-- C9 (amended): after every sequence of `registerLocation` (with a
fresh generated id), `setActiveLocation`, `updateLocation` whose updates
do not touch `isActive`, and `deleteLocation`, the ids stay distinct, at
most one location is active and any active one is the one named by
`activeLocationId`; a successful activation deactivates all others; and
deleting the active location promotes the first remaining location. -/
theorem geo_mutual_exclusion_spec :
    (∀ (ops : List GeoOp) (s : GeoState), GeoInv s → geoTraceOk s ops →
      GeoInv (geoRun s ops)) ∧
    (∀ (locationId now : Nat) (s : GeoState) (loc : RegisteredLocation),
      (setActiveLocation locationId now s).1 = true →
      loc ∈ (setActiveLocation locationId now s).2.registeredLocations →
      loc.isActive = true → loc.id = locationId) ∧
    (∀ (locationId : Nat) (s : GeoState) (first : RegisteredLocation)
        (rest : List RegisteredLocation),
      s.activeLocationId = some locationId →
      s.registeredLocations.eraseP (fun loc => decide (loc.id = locationId)) =
        first :: rest →
      (deleteLocation locationId s).1 = true →
      (deleteLocation locationId s).2.activeLocationId = some first.id ∧
      { first with isActive := true } ∈
        (deleteLocation locationId s).2.registeredLocations) := by
  refine ⟨fun ops s h hok => geoInv_run ops s h hok, ?_, ?_⟩
  · intro locationId now s loc hsucc hmem hactive
    unfold setActiveLocation at hsucc hmem
    cases hfind : s.registeredLocations.find? fun l => decide (l.id = locationId) with
    | none => rw [hfind] at hsucc; cases hsucc
    | some found =>
      rw [hfind] at hmem
      dsimp only at hmem
      rcases mem_modifyFirst hmem with hmem' | ⟨x, _, hpx, rfl⟩
      · rw [deact_all_inactive _ loc hmem'] at hactive; cases hactive
      · exact of_decide_eq_true hpx
  · intro locationId s first rest hactid hrem hsucc
    unfold deleteLocation at hsucc ⊢
    cases hfind : s.registeredLocations.find? fun l => decide (l.id = locationId) with
    | none => rw [hfind] at hsucc; cases hsucc
    | some found =>
      dsimp only
      rw [if_pos hactid, hrem]
      exact ⟨rfl, List.mem_cons_self _ _⟩

/-- C9 witness: the invariant holds after register, activate, delete
from the empty state. -/
theorem geo_mutual_exclusion_witness :
    GeoInv (geoRun geoState0
      [GeoOp.register "A" 0 0 100 1 10, GeoOp.setActive 1 20, GeoOp.delete 1]) :=
  geo_mutual_exclusion_spec.1
    [GeoOp.register "A" 0 0 100 1 10, GeoOp.setActive 1 20, GeoOp.delete 1]
    geoState0 (by decide) (by decide)

/-- C10 (amended): `currentStreak` in both stats functions equals the
count of present/late records in the filtered range — the loop's
`break` is unreachable after the filter, so calendar-day gaps are
ignored. -/
theorem currentStreak_spec :
    ∀ (periods : List ClassPeriod) (records : List AttendanceRecord) (sid : String)
      (days endDate startDate : Nat),
      (getAttendanceStats periods records sid days endDate).currentStreak =
        ((getAttendanceByDateRange records sid (endDate - days) endDate).filter
          goodStatus).length ∧
      (getAttendanceStatsByDateRange periods records sid startDate
        endDate).currentStreak =
        ((getAttendanceByDateRange records sid startDate endDate).filter
          goodStatus).length := by
  intro periods records sid days endDate startDate
  exact ⟨currentStreakOf_eq_count _, currentStreakOf_eq_count _⟩

/-- C10 counterexample: two `present` records nine calendar days apart
(days 101 and 110) in range [90, 120]: both stats functions report a
streak of 2, while the spec's consecutive-day streak counting back from
day 110 is 1. -/
theorem streak_gap_cex :
    (getAttendanceStatsByDateRange PERIOD_TIMETABLE gapRecords "s1" 90
      120).currentStreak = 2 ∧
    (getAttendanceStats PERIOD_TIMETABLE gapRecords "s1" 30 120).currentStreak = 2 ∧
    specConsecutiveDayStreak (getAttendanceByDateRange gapRecords "s1" 90 120) = 1 := by
  refine ⟨?_, ?_, ?_⟩ <;> decide


theorem append_ne_empty_of_left_pos (a b : String) (ha : 0 < a.length) :
    a ++ b ≠ "" := by
  intro hc
  have hl := congrArg String.length hc
  rw [String.length_append] at hl
  rw [show ("" : String).length = 0 from rfl] at hl
  omega

/-- Whenever check-in is refused, `reason.getD` yields a non-empty
message. -/
theorem window_reason_ne_empty (p : ClassPeriod) (t : Int) :
    (getAttendanceWindow p t).reason.getD "Attendance window is closed" ≠ "" := by
  unfold getAttendanceWindow
  dsimp only
  split
  · decide
  · split
    · apply append_ne_empty_of_left_pos
      rw [String.length_append]
      have h27 : ("Attendance window opens in " : String).length = 27 := rfl
      omega
    · split
      · decide
      · split
        · decide
        · decide

/-- The error slot of `verifyLocation`, with its `getD` default, is
never the empty string. -/
theorem verify_error_ne_empty (env : AttEnv) :
    (verifyLocation env).error.getD "Location verification failed" ≠ "" := by
  unfold verifyLocation
  cases env.activeGeofence with
  | none => dsimp only; decide
  | some g =>
    cases env.currentSample with
    | none => dsimp only; decide
    | some s =>
      dsimp only
      split
      · dsimp only; decide
      · dsimp only
        split
        · decide
        · apply append_ne_empty_of_left_pos
          rw [String.length_append]
          have h8 : ("You are " : String).length = 8 := rfl
          omega

/-- Source `markAttendance` always carries a non-empty message. -/
theorem markAttendance_message_ne_empty (env : AttEnv) (sid : String)
    (records : List AttendanceRecord) :
    (markAttendance env sid records).1.message ≠ "" := by
  cases hcp : getCurrentPeriod env.periods env.now with
  | none =>
    have hM : (markAttendance env sid records).1.message = "No active period found" := by
      simp [markAttendance, getPeriodStatus_currentPeriod, hcp]
    rw [hM]; decide
  | some p =>
    by_cases hact : p.is_active = true
    · by_cases hwin : (getAttendanceWindow p env.now).canCheckIn = true
      · by_cases hex : ((getTodayAttendance records sid env.today p.period).map
            (fun er => er.checkInTime.isSome)).getD false = true
        · have hM : (markAttendance env sid records).1.message =
              "Attendance already marked for " ++ p.label := by
            simp [markAttendance, getPeriodStatus_currentPeriod, hcp, hact, hwin, hex]
          rw [hM]
          apply append_ne_empty_of_left_pos
          have h30 : ("Attendance already marked for " : String).length = 30 := rfl
          omega
        · have hex' := Bool.of_not_eq_true hex
          by_cases hver : (verifyLocation env).verified = true
          · have hM : (markAttendance env sid records).1.message =
                ("Attendance marked successfully for " ++ p.label) ++
                  (if decide (env.now > timeToMinutes p.start_time + 5)
                    then " (Late)" else "") := by
              simp [markAttendance, getPeriodStatus_currentPeriod, hcp, hact, hwin,
                hex', hver, String.append_assoc]
            rw [hM]
            apply append_ne_empty_of_left_pos
            rw [String.length_append]
            have h35 : ("Attendance marked successfully for " : String).length = 35 := rfl
            omega
          · have hver' := Bool.of_not_eq_true hver
            have hM : (markAttendance env sid records).1.message =
                (verifyLocation env).error.getD "Location verification failed" := by
              simp [markAttendance, getPeriodStatus_currentPeriod, hcp, hact, hwin,
                hex', hver']
            rw [hM]
            exact verify_error_ne_empty env
      · have hwin' := Bool.of_not_eq_true hwin
        have hM : (markAttendance env sid records).1.message =
            (getAttendanceWindow p env.now).reason.getD "Attendance window is closed" := by
          simp [markAttendance, getPeriodStatus_currentPeriod, hcp, hact, hwin']
        rw [hM]
        exact window_reason_ne_empty p env.now
    · have hact' := Bool.of_not_eq_true hact
      have hM : (markAttendance env sid records).1.message =
          "Attendance not required during breaks" := by
        simp [markAttendance, getPeriodStatus_currentPeriod, hcp, hact']
      rw [hM]; decide

/-- C1: every failed check-in precondition — no current period, break
period, closed window, existing check-in for the key, bad accuracy,
outside the geofence — makes `markAttendance` return `success = false`
with a non-empty reason message and leave the record store unchanged;
and after a successful check-in, a second call for the same (student,
date, period) fails and leaves the store (hence the stored
`checkInTime`) unchanged. -/
theorem markAttendance_guard_spec :
    ∀ (env : AttEnv) (sid : String) (records : List AttendanceRecord),
      ((markAttendance env sid records).1.success = false →
        (markAttendance env sid records).2 = records) ∧
      (markAttendance env sid records).1.message ≠ "" ∧
      (getCurrentPeriod env.periods env.now = none →
        (markAttendance env sid records).1.success = false) ∧
      (∀ p, getCurrentPeriod env.periods env.now = some p → p.is_active = false →
        (markAttendance env sid records).1.success = false) ∧
      (∀ p, getCurrentPeriod env.periods env.now = some p →
        (getAttendanceWindow p env.now).canCheckIn = false →
        (markAttendance env sid records).1.success = false) ∧
      (∀ p r, getCurrentPeriod env.periods env.now = some p →
        getTodayAttendance records sid env.today p.period = some r →
        r.checkInTime.isSome = true →
        (markAttendance env sid records).1.success = false) ∧
      (∀ s, env.currentSample = some s → validateLocationAccuracy s = false →
        (markAttendance env sid records).1.success = false) ∧
      (∀ s g, env.currentSample = some s → env.activeGeofence = some g →
        isWithinGeofence env.dist s g = false →
        (markAttendance env sid records).1.success = false) ∧
      ((records.map fun r => r.id).Nodup →
        (markAttendance env sid records).1.success = true →
        ∀ env₂ : AttEnv, env₂.today = env.today →
          (getCurrentPeriod env₂.periods env₂.now).map (fun p => p.period) =
            (getCurrentPeriod env.periods env.now).map (fun p => p.period) →
          (markAttendance env₂ sid (markAttendance env sid records).2).1.success =
            false ∧
          (markAttendance env₂ sid (markAttendance env sid records).2).2 =
            (markAttendance env sid records).2) := by
  intro env sid records
  refine ⟨markAttendance_fail_frame env sid records,
    markAttendance_message_ne_empty env sid records, ?_, ?_, ?_, ?_, ?_, ?_, ?_⟩
  · intro hnone
    rcases markAttendance_cases env sid records with ⟨hf, -⟩ | ⟨-, p, hcp, -⟩
    · exact hf
    · rw [hnone] at hcp; cases hcp
  · intro p hcp hinact
    rcases markAttendance_cases env sid records with ⟨hf, -⟩ | ⟨-, p', hcp', hwin', -⟩
    · exact hf
    · rw [hcp] at hcp'
      obtain rfl : p = p' := by injection hcp'
      have := ((canCheckIn_iff p env.now).mp hwin').1
      rw [hinact] at this
      cases this
  · intro p hcp hwinf
    rcases markAttendance_cases env sid records with ⟨hf, -⟩ | ⟨-, p', hcp', hwin', -⟩
    · exact hf
    · rw [hcp] at hcp'
      obtain rfl : p = p' := by injection hcp'
      rw [hwinf] at hwin'
      cases hwin'
  · intro p r hcp hr hcit
    rcases markAttendance_cases env sid records with ⟨hf, -⟩ |
      ⟨-, p', hcp', -, -, hex', -⟩
    · exact hf
    · rw [hcp] at hcp'
      obtain rfl : p = p' := by injection hcp'
      rw [hr] at hex'
      simp only [Option.map_some', Option.getD_some] at hex'
      rw [hcit] at hex'
      cases hex'
  · intro s hs hbad
    rcases markAttendance_cases env sid records with ⟨hf, -⟩ |
      ⟨-, p', -, -, hver', -⟩
    · exact hf
    · obtain ⟨g, s₂, -, hs₂, hval, -⟩ := (verifyLocation_verified_iff env).mp hver'
      rw [hs] at hs₂
      obtain rfl : s = s₂ := by injection hs₂
      rw [hbad] at hval
      cases hval
  · intro s g hs hg hout
    rcases markAttendance_cases env sid records with ⟨hf, -⟩ |
      ⟨-, p', -, -, hver', -⟩
    · exact hf
    · obtain ⟨g₂, s₂, hg₂, hs₂, -, hwithin⟩ := (verifyLocation_verified_iff env).mp hver'
      rw [hs] at hs₂
      obtain rfl : s = s₂ := by injection hs₂
      rw [hg] at hg₂
      obtain rfl : g = g₂ := by injection hg₂
      rw [hout] at hwithin
      cases hwithin
  · intro hnd hsucc env₂ htoday hsame
    obtain ⟨p, rec, hcp, -, hfound, hcit, -⟩ :=
      markAttendance_success_found env sid records hnd hsucc
    have hfail2 :
        (markAttendance env₂ sid (markAttendance env sid records).2).1.success = false := by
      rcases markAttendance_cases env₂ sid (markAttendance env sid records).2 with
        ⟨hf, -⟩ | ⟨-, p₂, hcp₂, -, -, hex₂, -⟩
      · exact hf
      · rw [hcp₂, hcp] at hsame
        simp only [Option.map_some'] at hsame
        have hpn : p₂.period = p.period := by injection hsame
        rw [htoday, hpn, hfound] at hex₂
        simp only [Option.map_some', Option.getD_some] at hex₂
        rw [hcit] at hex₂
        cases hex₂
    exact ⟨hfail2, markAttendance_fail_frame env₂ sid _ hfail2⟩

/-- C1 witness: after the successful 08:50 check-in, a second call at
08:53 for the same student, day and period fails and the store is
unchanged. -/
theorem markAttendance_guard_witness :
    (markAttendance (envLater 533) "s1" (markAttendance (envAt 530) "s1" []).2).1.success =
      false ∧
    (markAttendance (envLater 533) "s1" (markAttendance (envAt 530) "s1" []).2).2 =
      (markAttendance (envAt 530) "s1" []).2 :=
  (markAttendance_guard_spec (envAt 530) "s1" []).2.2.2.2.2.2.2.2
    (by decide) (by decide) (envLater 533) (by decide) (by decide)
